import Mathlib

/-!
Shallow embedding of the pip-services-rpc-node RPC toolkit (TypeScript),
covering the components referenced by the verified properties below:

* `src/services/HttpResponseSender.ts` — response helpers,
* `src/connect/HttpConnectionResolver.ts` — connection validation/resolution,
* `src/services/HttpEndpoint.ts` — route registration, unregister, open/close,
* `src/services/CommandableHttpService.ts` (file also holds `RestService`) —
  command-to-route generation, service open/close,
* `src/clients/RestClient.ts`, `src/clients/DirectClient.ts` — client lifecycle.

JavaScript nullable values are modelled with `Option`; JS objects that only
matter by presence are modelled by `Bool` flags; behaviour of external
libraries (lodash `_.pick`/`_.defaults`/`_.remove`, Node `url.parse`) is
embedded where the code depends on it.
-/

namespace PipRpc

/-! ## HTTP responses (restify `res` object)

The restify response object is modelled as the status code set so far
(`res.status`, initially 200) together with the JSON body sent by
`res.json`/`res.send` (`none` = empty body / nothing sent). -/

/-- Error object as received by `HttpResponseSender.sendError`: the eight
properties that `_.pick` projects.  Absent JS properties are `none`. -/
structure ErrObj where
  code : Option String := none
  status : Option Nat := none
  name : Option String := none
  details : Option String := none
  component : Option String := none
  message : Option String := none
  stack : Option String := none
  cause : Option String := none
deriving Repr, DecidableEq

/-- The normalized error payload after `_.pick` + `_.defaults(result,
\x7b code: 'Undefined', status: 500, message: 'Unknown error' \x7d)`:
`code`, `status` and `message` are always present afterwards. -/
structure ErrorResult where
  code : String
  status : Nat
  name : Option String
  details : Option String
  component : Option String
  message : String
  stack : Option String
  cause : Option String
deriving Repr, DecidableEq

/-- JSON body of a response: either an opaque result value or the
normalized error payload. -/
inductive BodyV where
  | value (v : String)
  | errorPayload (e : ErrorResult)
deriving Repr, DecidableEq

/-- Observable state of the restify response object. -/
structure HttpResponse where
  statusCode : Nat
  body : Option BodyV
deriving Repr, DecidableEq

/-- Fresh response object: restify defaults the status code to 200,
no body sent yet. -/
def res0 : HttpResponse := { statusCode := 200, body := none }

/-- `res.status(code)`: set the status code for the eventual send. -/
def resStatus (res : HttpResponse) (code : Nat) : HttpResponse :=
  { res with statusCode := code }

/-- `res.send(code)`: send an empty-bodied response with the given code. -/
def resSend (res : HttpResponse) (code : Nat) : HttpResponse :=
  { res with statusCode := code }

/-- `res.json(v)`: send `v` as the JSON body with the current status code. -/
def resJson (res : HttpResponse) (v : BodyV) : HttpResponse :=
  { res with body := some v }

/-- `_.pick(error, ...8 keys)` followed by `_.defaults(result, \x7b code:
'Undefined', status: 500, message: 'Unknown error' \x7d)`
(HttpResponseSender.sendError lines 22-23).  `_.pick` is the identity on
this model since `ErrObj` carries exactly the eight picked keys;
`_.defaults` fills only the keys that are absent. -/
def normalizeError (e : ErrObj) : ErrorResult :=
  { code := e.code.getD "Undefined"
    status := e.status.getD 500
    name := e.name
    details := e.details
    component := e.component
    message := e.message.getD "Unknown error"
    stack := e.stack
    cause := e.cause }

/-- `HttpResponseSender.sendError(req, res, error)`: `error = error || \x7b\x7d`,
unwrap (identity on already-plain errors), pick+defaults, then
`res.status(result.status); res.json(result)`. -/
def sendError (res : HttpResponse) (error : Option ErrObj) : HttpResponse :=
  let e := error.getD {}
  let result := normalizeError e
  resJson (resStatus res result.status) (BodyV.errorPayload result)

/-- The callback returned by `HttpResponseSender.sendResult(req, res)`,
applied to the `(err, result)` pair it is eventually called with. -/
def sendResult (res : HttpResponse) (err : Option ErrObj) (result : Option String) :
    HttpResponse :=
  match err with
  | some e => sendError res (some e)
  | none =>
    match result with
    | none => resSend res 204
    | some v => resJson res (BodyV.value v)

/-- The callback returned by `HttpResponseSender.sendCreatedResult(req, res)`. -/
def sendCreatedResult (res : HttpResponse) (err : Option ErrObj) (result : Option String) :
    HttpResponse :=
  match err with
  | some e => sendError res (some e)
  | none =>
    match result with
    | none => resStatus res 204
    | some v => resJson (resStatus res 201) (BodyV.value v)

/-- The callback returned by `HttpResponseSender.sendDeletedResult(req, res)`. -/
def sendDeletedResult (res : HttpResponse) (err : Option ErrObj) (result : Option String) :
    HttpResponse :=
  match err with
  | some e => sendError res (some e)
  | none =>
    match result with
    | none => resStatus res 204
    | some v => resJson (resStatus res 200) (BodyV.value v)

/-! ## Connection parameters and `HttpConnectionResolver`
(`src/connect/HttpConnectionResolver.ts`)

`ConnectionParams` (external `pip-services-components-node` class) is a
string-keyed config map; here it is modelled by its four relevant fields.
`getProtocol(default)` returns the stored protocol or the default;
`getPort()` returns the stored port or 0. -/

/-- Connection parameters: `protocol`, `host`, `port`, `uri` (all nullable;
a missing port reads back as 0 through `getPort`). -/
structure ConnectionParams where
  protocol : Option String := none
  host : Option String := none
  port : Option Nat := none
  uri : Option String := none
deriving Repr, DecidableEq

/-- `connection.getProtocol(defaultValue)`. -/
def ConnectionParams.getProtocol (c : ConnectionParams) (d : String) : String :=
  c.protocol.getD d

/-- `connection.getPort()` (defaults to 0 when unset). -/
def ConnectionParams.getPort (c : ConnectionParams) : Nat :=
  c.port.getD 0

/-- Configuration errors raised by `validateConnection`
(`ConfigException` instances, identified by their code). -/
inductive ConfigError where
  | noConnection
  | wrongProtocol (protocol : String)
  | noHost
  | noPort
deriving Repr, DecidableEq

/-- `HttpConnectionResolver.validateConnection` (lines 78-101):
null connection, then uri short-circuit, then protocol / host / port
checks in that order. -/
def validateConnection (connection : Option ConnectionParams) : Option ConfigError :=
  match connection with
  | none => some ConfigError.noConnection
  | some c =>
    match c.uri with
    | some _ => none
    | none =>
      let protocol := c.getProtocol "http"
      if protocol ≠ "http" then some (ConfigError.wrongProtocol protocol)
      else if c.host = none then some ConfigError.noHost
      else if c.getPort = 0 then some ConfigError.noPort
      else none

/-- Result of Node's `url.parse`, restricted to the three fields the
resolver reads: `protocol` (with trailing colon), `hostname`, `port`. -/
structure UrlAddress where
  protocol : Option String
  hostname : Option String
  port : Option Nat
deriving Repr, DecidableEq

/-- Model of Node's `url.parse` for scheme-qualified URIs: splits the
scheme before `://`, then the authority before the first `/`, then an
optional `:port` suffix.  A string without `://` parses with null
protocol/hostname/port (it is all pathname). -/
def urlParse (uri : String) : UrlAddress :=
  match uri.splitOn "://" with
  | scheme :: rest₁ :: rest =>
    let remainder := String.intercalate "://" (rest₁ :: rest)
    let authority := (remainder.splitOn "/").headD ""
    match authority.splitOn ":" with
    | hostname :: portStr :: _ =>
      { protocol := some (scheme ++ ":"), hostname := some hostname,
        port := portStr.toNat? }
    | _ =>
      { protocol := some (scheme ++ ":"), hostname := some authority, port := none }
  | _ => { protocol := none, hostname := none, port := none }

/-- JavaScript string coercion of a nullable string (`"" + x`):
`null` prints as `"null"`. -/
def jsStr (o : Option String) : String := o.getD "null"

/-- JavaScript `s.replace(pat, rep)` with a string pattern replaces only
the first occurrence. -/
def jsReplaceFirst (s pat rep : String) : String :=
  match s.splitOn pat with
  | a :: b :: rest => a ++ rep ++ String.intercalate pat (b :: rest)
  | _ => s

/-- The uri-synthesis branch of `updateConnection` (lines 108-116): taken
when `uri` is null or empty; builds `protocol + "://" + host` and appends
`":" + port` when the port is nonzero. -/
def updateConnectionSynth (c : ConnectionParams) : ConnectionParams :=
  let protocol := c.getProtocol "http"
  let host := jsStr c.host
  let port := c.getPort
  let uri := protocol ++ "://" ++ host
  let uri := if port ≠ 0 then uri ++ ":" ++ toString port else uri
  { c with uri := some uri }

/-- The uri-parsing branch of `updateConnection` (lines 117-124): re-derives
`protocol` (colon stripped; a null parse prints as `"null"`), `host` and
`port` from the explicit uri, which itself is left unchanged. -/
def updateConnectionParse (c : ConnectionParams) (u : String) : ConnectionParams :=
  let address := urlParse u
  let protocol := jsReplaceFirst (jsStr address.protocol) ":" ""
  { c with protocol := some protocol, host := address.hostname, port := address.port }

/-- `HttpConnectionResolver.updateConnection` (lines 103-125). -/
def updateConnection (c : ConnectionParams) : ConnectionParams :=
  match c.uri with
  | none => updateConnectionSynth c
  | some u => if u = "" then updateConnectionSynth c else updateConnectionParse c u

/-- `HttpConnectionResolver.resolve` (lines 136-146), given the connection
delivered by the underlying `ConnectionResolver` with a null error:
validates, updates on success, and passes both the error and the
(possibly updated) connection to the callback. -/
def resolveConnection (connection : Option ConnectionParams) :
    Option ConfigError × Option ConnectionParams :=
  let err := validateConnection connection
  let connection :=
    match err, connection with
    | none, some c => some (updateConnection c)
    | _, _ => connection
  (err, connection)

/-! ## Route registration (`HttpEndpoint.registerRoute`,
`RestService.registerRoute`, `CommandableHttpService.register`) -/

/-- A route installed on the restify server (`this._server[method](route, ...)`):
the server-level method name and the full path. -/
structure ServerRoute where
  method : String
  route : String
deriving Repr, DecidableEq

/-- JavaScript `toLowerCase` on an ASCII character. -/
def jsToLowerChar (c : Char) : Char :=
  if 'A' ≤ c ∧ c ≤ 'Z' then Char.ofNat (c.toNat + 32) else c

/-- JavaScript `method.toLowerCase()` (methods are ASCII). -/
def jsToLower (s : String) : String := ⟨s.data.map jsToLowerChar⟩

/-- Method lowering in `HttpEndpoint.registerRoute` (lines 152-153):
lower-case, and `delete` becomes restify's `del`. -/
def methodToServerMethod (method : String) : String :=
  let m := jsToLower method
  if m = "delete" then "del" else m

/-- `HttpEndpoint.registerRoute` as it affects the server's route table
(the wrapped validation handler is modelled separately by
`routeActionCurl`). -/
def endpointRegisterRoute (routes : List ServerRoute) (method route : String) :
    List ServerRoute :=
  routes ++ [{ method := methodToServerMethod method, route := route }]

/-- The `route[0] != '/' ? '/' + route : route` pattern used by
`CommandableHttpService.register` (line 26) and, for the base route, by
`RestService.registerRoute` (line 358).  On the empty string, `route[0]`
is `undefined`, which differs from `'/'`, so a slash is prepended. -/
def ensureLeadingSlash (route : String) : String :=
  if route.data.head? ≠ some '/' then "/" ++ route else route

/-- `RestService.registerRoute` (lines 352-368): a null endpoint makes it
a no-op; a non-empty base route (slash-ensured) is prepended to the route
before it is handed to the endpoint. -/
def serviceRegisterRoute (endpoint : Option (List ServerRoute)) (baseRoute : String)
    (method route : String) : Option (List ServerRoute) :=
  match endpoint with
  | none => none
  | some routes =>
    let route := if baseRoute.length > 0 then ensureLeadingSlash baseRoute ++ route
      else route
    some (endpointRegisterRoute routes method route)

/-- `CommandableHttpService.register` (lines 17-40) as it affects the route
table: one `registerRoute('post', ...)` per command of the controller's
command set, the command name slash-ensured. -/
def commandableRegister (baseRoute : String) (commands : List String)
    (endpoint : Option (List ServerRoute)) : Option (List ServerRoute) :=
  commands.foldl
    (fun ep name => serviceRegisterRoute ep baseRoute "post" (ensureLeadingSlash name))
    endpoint

/-! ## Per-request validation wrapper (`HttpEndpoint.registerRoute`,
lines 156-170) -/

/-- An incoming request: its route params and parsed body. -/
structure RouteRequest where
  params : List (String × String)
  body : Option String
deriving Repr, DecidableEq

/-- The merged object `_.extend(\x7b\x7d, req.params, \x7b body: req.body \x7d)`
(line 159): the request params plus a `body` key. -/
structure MergedParams where
  params : List (String × String)
  body : Option String
deriving Repr, DecidableEq

/-- Builds the merged `\x7b params..., body \x7d` validation input. -/
def mergeRequestParams (req : RouteRequest) : MergedParams :=
  { params := req.params, body := req.body }

/-- A validation schema (`Schema` from `pip-services-commons-node`):
`validateAndReturnException` yields an exception or null. -/
structure ValidationSchema where
  validate : MergedParams → Option ErrObj

/-- The wrapped handler `actionCurl` installed by
`HttpEndpoint.registerRoute` (lines 156-170): with a non-null schema the
merged params are validated first, and a failure sends the error and
returns without calling `action`.  The boolean records whether the
user-supplied `action` was invoked. -/
def routeActionCurl (schema : Option ValidationSchema)
    (action : RouteRequest → HttpResponse) (req : RouteRequest) :
    HttpResponse × Bool :=
  match schema with
  | some s =>
    match s.validate (mergeRequestParams req) with
    | some err => (sendError res0 (some err), false)
    | none => (action req, true)
  | none => (action req, true)

/-! ## `HttpEndpoint.unregister` (lines 140-142)

lodash `_.remove(array, pred)` splits the array: it mutates `array` to
keep the non-matching elements and RETURNS the matching (removed)
elements.  The code assigns that return value back to
`this._registrations`.  Registrations are identified by ids (JS `==` on
object references). -/

/-- lodash `_.remove`: `(removed elements, elements left in the array)`. -/
def lodashRemove {α : Type} : List α → (α → Bool) → List α × List α
  | [], _ => ([], [])
  | a :: rest, p =>
    let (removed, kept) := lodashRemove rest p
    if p a then (a :: removed, kept) else (removed, a :: kept)

/-- `HttpEndpoint.unregister(registration)`: the registration list is
replaced by the value `_.remove` returns. -/
def endpointUnregister (registrations : List Nat) (registration : Nat) : List Nat :=
  (lodashRemove registrations (fun r => r == registration)).1

/-! ## Lifecycle (`open`/`close`) of endpoint, service and clients

All these operations take an OPTIONAL completion callback.  Its presence
is modelled by a `Bool`; an unguarded JS call `callback(err)` on an absent
callback throws a `TypeError`, while a guarded `if (callback) callback(err)`
simply skips the call. -/

/-- Errors surfaced through lifecycle callbacks. -/
inductive RpcError where
  | configError (e : ConfigError)
  | connectionError (code message : String)
  | invalidState (code message : String)
deriving Repr, DecidableEq

/-- What happened to the optional completion callback: it was invoked with
an error-or-null, the operation returned without invoking it, the
operation threw an error synchronously, or an unguarded `callback(...)`
call hit an `undefined` callback (JS `TypeError`). -/
inductive CallbackResult where
  | invoked (err : Option RpcError)
  | returned
  | thrown (err : RpcError)
  | typeError
deriving Repr, DecidableEq

/-- An unguarded `callback(err)` call. -/
def invokeCb (cb : Bool) (err : Option RpcError) : CallbackResult :=
  if cb then CallbackResult.invoked err else CallbackResult.typeError

/-- A guarded `if (callback) callback(err)` call. -/
def invokeCbGuarded (cb : Bool) (err : Option RpcError) : CallbackResult :=
  if cb then CallbackResult.invoked err else CallbackResult.returned

/-! ### `HttpEndpoint` (`src/services/HttpEndpoint.ts`) -/

/-- Observable state of an `HttpEndpoint`: whether `_server` is non-null
(`isOpen`) and the recorded `_uri`. -/
structure HttpEndpointState where
  serverPresent : Bool
  uri : Option String
deriving Repr, DecidableEq

/-- `HttpEndpoint.open` (lines 52-117).  The environment supplies the
outcome of `connectionResolver.resolve` and of `server.listen`
(`none` = bound successfully, `some m` = listen error message).  The
already-open fast path (lines 53-56) calls the callback UNGUARDED; the
resolver-error path (line 60) is also unguarded; the listen continuation
and the catch block guard with `if (callback)`.  Server construction,
middleware installation and `performRegistrations` are pure in this model
(their throwing catch path is not reachable here). -/
def httpEndpointOpen (resolveResult : Option ConfigError × Option ConnectionParams)
    (listenErr : Option String) (cb : Bool) (st : HttpEndpointState) :
    HttpEndpointState × CallbackResult :=
  if st.serverPresent then (st, invokeCb cb none)
  else
    match resolveResult with
    | (some e, _) => (st, invokeCb cb (some (RpcError.configError e)))
    | (none, connection) =>
      let uri := connection.bind ConnectionParams.uri
      let st := { st with serverPresent := true, uri := uri }
      match listenErr with
      | none => (st, invokeCbGuarded cb none)
      | some m =>
        (st, invokeCbGuarded cb
          (some (RpcError.connectionError "CANNOT_CONNECT" m)))

/-- `HttpEndpoint.close` (lines 119-134): best-effort server shutdown
(exceptions eaten), fields nulled, then an UNGUARDED `callback(null)`. -/
def httpEndpointClose (cb : Bool) (st : HttpEndpointState) :
    HttpEndpointState × CallbackResult :=
  let st := if st.serverPresent then { st with serverPresent := false, uri := none }
    else st
  (st, invokeCb cb none)

/-! ### `RestService` (in `src/services/CommandableHttpService.ts`) -/

/-- Observable state of a `RestService`: the `_opened` flag, whether
`_endpoint` is non-null, and the `_localEndpoint` ownership flag. -/
structure RestServiceState where
  opened : Bool
  endpointPresent : Bool
  localEndpoint : Bool
deriving Repr, DecidableEq

/-- `RestService.open` (lines 246-267).  `env` is the error the owned
endpoint's `open` would deliver.  The already-open fast path (lines
247-250) calls the callback UNGUARDED, as do both remaining paths.  The
third component records whether `this._endpoint.open` was invoked (i.e.
whether a connection resolve / socket bind was attempted). -/
def restServiceOpen (env : Option RpcError) (cb : Bool) (st : RestServiceState) :
    RestServiceState × CallbackResult × Bool :=
  if st.opened then (st, invokeCb cb none, false)
  else
    let st := if !st.endpointPresent then
        { st with endpointPresent := true, localEndpoint := true }
      else st
    if st.localEndpoint then
      match env with
      | none => ({ st with opened := true }, invokeCb cb none, true)
      | some e => ({ st with opened := false }, invokeCb cb (some e), true)
    else
      ({ st with opened := true }, invokeCb cb none, false)

/-- `RestService.close` (lines 277-297).  All callback invocations are
UNGUARDED.  A locally-owned endpoint is closed (`HttpEndpoint.close`
always delivers a null error); the third component records whether
`this._endpoint.close` was invoked. -/
def restServiceClose (cb : Bool) (st : RestServiceState) :
    RestServiceState × CallbackResult × Bool :=
  if !st.opened then (st, invokeCb cb none, false)
  else if !st.endpointPresent then
    (st, invokeCb cb
      (some (RpcError.invalidState "NO_ENDPOINT" "HTTP endpoint is missing")), false)
  else if st.localEndpoint then
    ({ st with opened := false }, invokeCb cb none, true)
  else
    ({ st with opened := false }, invokeCb cb none, false)

/-! ### `RestClient` (`src/clients/RestClient.ts`) -/

/-- Observable state of a `RestClient`: whether `_client` is non-null
(`isOpen`) and the recorded `_uri`. -/
structure RestClientState where
  clientPresent : Bool
  uri : Option String
deriving Repr, DecidableEq

/-- `RestClient.open` (lines 72-109).  Every callback invocation is
GUARDED by `if (callback)`.  The environment supplies the resolver
outcome; on success a JSON client is constructed (construction is pure in
this model, so the catch path is not reachable).  The third component
records whether `connectionResolver.resolve` was invoked. -/
def restClientOpen (resolveResult : Option ConfigError × Option ConnectionParams)
    (cb : Bool) (st : RestClientState) : RestClientState × CallbackResult × Bool :=
  if st.clientPresent then (st, invokeCbGuarded cb none, false)
  else
    match resolveResult with
    | (some e, _) => (st, invokeCbGuarded cb (some (RpcError.configError e)), true)
    | (none, connection) =>
      let uri := connection.bind ConnectionParams.uri
      ({ clientPresent := true, uri := uri }, invokeCbGuarded cb none, true)

/-- `RestClient.close` (lines 111-125): nulls `_client`/`_uri` when open,
then a GUARDED `callback(null)`. -/
def restClientClose (cb : Bool) (st : RestClientState) :
    RestClientState × CallbackResult :=
  let st := if st.clientPresent then { st with clientPresent := false, uri := none }
    else st
  (st, invokeCbGuarded cb none)

/-! ### `DirectClient` (`src/clients/DirectClient.ts`) -/

/-- Observable state of a `DirectClient`: the controller reference
(identified by an id, `none` = missing) and the `_opened` flag. -/
structure DirectClientState where
  controller : Option Nat
  opened : Bool
deriving Repr, DecidableEq

/-- A freshly constructed `DirectClient` with the given controller
reference.  NOTE: the field initializer at line 71 of `DirectClient.ts`
is `protected _opened: boolean = true;` — a new client starts OPEN. -/
def directClientNew (controller : Option Nat) : DirectClientState :=
  { controller := controller, opened := true }

/-- `DirectClient.isOpen`. -/
def directClientIsOpen (st : DirectClientState) : Bool := st.opened

/-- `DirectClient.open` (lines 165-185).  The already-open fast path and
the final `callback(null)` are UNGUARDED; only the missing-controller
branch guards the callback and throws instead when it is absent. -/
def directClientOpen (cb : Bool) (st : DirectClientState) :
    DirectClientState × CallbackResult :=
  if st.opened then (st, invokeCb cb none)
  else if st.controller = none then
    let err := RpcError.connectionError "NO_CONTROLLER" "Controller reference is missing"
    (st, if cb then CallbackResult.invoked (some err) else CallbackResult.thrown err)
  else
    ({ st with opened := true }, invokeCb cb none)

/-- `DirectClient.close` (lines 194-201): clears `_opened`, then an
UNGUARDED `callback(null)`. -/
def directClientClose (cb : Bool) (st : DirectClientState) :
    DirectClientState × CallbackResult :=
  ({ st with opened := false }, invokeCb cb none)

/-! ## Helper lemmas -/

/-- What lodash `_.remove` returns is exactly the matching elements,
in order. -/
theorem lodashRemove_fst {α : Type} (l : List α) (p : α → Bool) :
    (lodashRemove l p).1 = l.filter p := by
  induction l with
  | nil => rfl
  | cons a rest ih =>
    simp only [lodashRemove, List.filter]
    cases h : p a <;> simp [h, ih]

/-- Registering the commands of a command set with an empty base route
appends one slash-ensured POST route per command to the endpoint's
route table. -/
theorem commandableRegister_append (commands : List String) (acc : List ServerRoute) :
    commandableRegister "" commands (some acc) =
      some (acc ++ commands.map fun name =>
        { method := "post", route := ensureLeadingSlash name }) := by
  induction commands generalizing acc with
  | nil => simp [commandableRegister]
  | cons name rest ih =>
    have hpost : methodToServerMethod "post" = "post" := by decide
    have hstep : serviceRegisterRoute (some acc) "" "post" (ensureLeadingSlash name) =
        some (acc ++ [{ method := "post", route := ensureLeadingSlash name }]) := by
      simp [serviceRegisterRoute, endpointRegisterRoute, hpost]
    simp only [commandableRegister, List.foldl_cons] at *
    rw [hstep, ih]
    simp

/-! ## Claim theorems -/

/-- Claim C1: the response helpers realize the fixed mapping — `sendResult`
with null result sends 204 with empty body and with a value sends 200/JSON;
`sendCreatedResult` yields 204 for null and 201/JSON for a value;
`sendDeletedResult` yields 204 for null and 200/JSON for a value; and on
any error all three delegate to `sendError`, whose status is the status
carried on the error (default 500) and whose body is the normalized
eight-field error payload. -/
theorem c1_response_helper_mapping (v : String) (e : ErrObj) (r : Option String) :
    sendResult res0 none none = { statusCode := 204, body := none } ∧
    sendResult res0 none (some v) =
      { statusCode := 200, body := some (BodyV.value v) } ∧
    sendCreatedResult res0 none none = { statusCode := 204, body := none } ∧
    sendCreatedResult res0 none (some v) =
      { statusCode := 201, body := some (BodyV.value v) } ∧
    sendDeletedResult res0 none none = { statusCode := 204, body := none } ∧
    sendDeletedResult res0 none (some v) =
      { statusCode := 200, body := some (BodyV.value v) } ∧
    sendResult res0 (some e) r = sendError res0 (some e) ∧
    sendCreatedResult res0 (some e) r = sendError res0 (some e) ∧
    sendDeletedResult res0 (some e) r = sendError res0 (some e) ∧
    (sendError res0 (some e)).statusCode = e.status.getD 500 ∧
    (sendError res0 (some e)).body =
      some (BodyV.errorPayload (normalizeError e)) := by
  exact ⟨rfl, rfl, rfl, rfl, rfl, rfl, rfl, rfl, rfl, rfl, rfl⟩

/-- Claim C3: for a connection with protocol `http`, a host, a nonzero port
and no uri, `resolve` succeeds and synthesizes the uri
`http://\x7bhost\x7d:\x7bport\x7d`, leaving the other parts untouched. -/
theorem c3_resolve_synthesizes_uri (h : String) (p : Nat) (hp : p ≠ 0) :
    resolveConnection
        (some { protocol := some "http", host := some h, port := some p, uri := none }) =
      (none,
        some { protocol := some "http", host := some h, port := some p,
               uri := some ("http://" ++ h ++ ":" ++ toString p) }) := by
  simp [resolveConnection, validateConnection, updateConnection, updateConnectionSynth,
    ConnectionParams.getProtocol, ConnectionParams.getPort, jsStr, hp]

/-- Witness for C3 at host `localhost`, port 3000. -/
theorem c3_resolve_synthesizes_uri_witness :
    resolveConnection
        (some { protocol := some "http", host := some "localhost", port := some 3000,
                uri := none }) =
      (none,
        some { protocol := some "http", host := some "localhost", port := some 3000,
               uri := some "http://localhost:3000" }) :=
  c3_resolve_synthesizes_uri "localhost" 3000 (by decide)

/-- Claim C4: with no uri set, `resolve` delivers a configuration error —
and hands the connection back unchanged, with no uri synthesized —
whenever the host is missing, the port is 0, or the (defaulted) protocol
is not `http`; and `resolve` of a null connection also fails with a
configuration error. -/
theorem c4_resolve_validation_failures (c : ConnectionParams)
    (hu : c.uri = none)
    (hbad : c.host = none ∨ c.getPort = 0 ∨ c.getProtocol "http" ≠ "http") :
    ((resolveConnection (some c)).1.isSome = true ∧
      (resolveConnection (some c)).2 = some c) ∧
    (resolveConnection none).1.isSome = true := by
  have hval : (validateConnection (some c)).isSome = true := by
    simp only [validateConnection, hu]
    by_cases hproto : c.getProtocol "http" = "http"
    · rcases hbad with hh | hp | hpr
      · simp [hproto, hh]
      · by_cases hh : c.host = none
        · simp [hproto, hh]
        · simp [hproto, hh, hp]
      · exact absurd hproto hpr
    · simp [hproto]
  refine ⟨?_, by decide⟩
  obtain ⟨e, he⟩ := Option.isSome_iff_exists.mp hval
  simp [resolveConnection, he]

/-- Witness for C4 at a connection with protocol `http`, no host, port
3000, no uri. -/
theorem c4_resolve_validation_failures_witness :
    ((resolveConnection
        (some { protocol := some "http", host := none, port := some 3000,
                uri := none })).1.isSome = true ∧
      (resolveConnection
        (some { protocol := some "http", host := none, port := some 3000,
                uri := none })).2 =
        some { protocol := some "http", host := none, port := some 3000,
               uri := none }) ∧
    (resolveConnection none).1.isSome = true :=
  c4_resolve_validation_failures
    { protocol := some "http", host := none, port := some 3000, uri := none }
    rfl (Or.inl rfl)

/-- Claim C5, counterexample to the literal statement: a command whose name
already starts with `/` is registered under that name unchanged, not under
the name with a further `/` prepended. -/
theorem c5_route_counterexample :
    commandableRegister "" ["/x"] (some []) =
      some [{ method := "post", route := "/x" }] ∧
    ("/x" : String) ≠ "/" ++ "/x" := by
  exact ⟨rfl, by decide⟩

/-- Claim C5 (amended): a commandable service registers exactly one route
per controller command, each with server method `post`; the route equals
the command's name with `/` prepended when the name does not already start
with `/`, and equals the name unchanged otherwise (all before the
base-route prefixing, here with an empty base route). -/
theorem c5_commandable_routes (commands : List String) :
    commandableRegister "" commands (some []) =
      some (commands.map fun name =>
        { method := "post", route := ensureLeadingSlash name }) ∧
    (commands.map fun name =>
      ({ method := "post", route := ensureLeadingSlash name } : ServerRoute)).length =
      commands.length := by
  refine ⟨?_, List.length_map _ _⟩
  simpa using commandableRegister_append commands []

/-- Claim C6: on a route registered with a non-null validation schema, a
request whose merged params-plus-body object fails validation gets the
error response sent and the user-supplied handler is never invoked. -/
theorem c6_validation_short_circuits (s : ValidationSchema)
    (action : RouteRequest → HttpResponse) (req : RouteRequest) (e : ErrObj)
    (hval : s.validate (mergeRequestParams req) = some e) :
    routeActionCurl (some s) action req = (sendError res0 (some e), false) := by
  simp [routeActionCurl, hval]

/-- Witness for C6: a schema rejecting requests without a body, on a
body-less request. -/
theorem c6_validation_short_circuits_witness :
    routeActionCurl
        (some ⟨fun m => if m.body = none then some { message := some "bad request" }
          else none⟩)
        (fun _ => res0) { params := [], body := none } =
      (sendError res0 (some { message := some "bad request" }), false) :=
  c6_validation_short_circuits _ _ _ _ rfl

/-- Claim C7: for a connection carrying an explicit non-empty uri,
`updateConnection` is idempotent — the second application re-parses the
unchanged uri and re-derives the same protocol, host and port. -/
theorem c7_updateConnection_idempotent (c : ConnectionParams) (u : String)
    (hu : c.uri = some u) (hne : u ≠ "") :
    updateConnection (updateConnection c) = updateConnection c := by
  have h1 : updateConnection c = updateConnectionParse c u := by
    simp [updateConnection, hu, hne]
  have h2 : (updateConnectionParse c u).uri = some u := hu
  rw [h1]
  have h3 : updateConnection (updateConnectionParse c u) =
      updateConnectionParse (updateConnectionParse c u) u := by
    simp [updateConnection, h2, hne]
  rw [h3]
  rfl

/-- Witness for C7 at the uri `http://localhost:3000`. -/
theorem c7_updateConnection_idempotent_witness :
    updateConnection (updateConnection { uri := some "http://localhost:3000" }) =
      updateConnection { uri := some "http://localhost:3000" } :=
  c7_updateConnection_idempotent _ "http://localhost:3000" rfl (by decide)

/-- Claim C2, code evaluation at the failing input: a freshly constructed
`DirectClient` with NO controller reference reports itself open (the field
initializer sets `_opened` to `true`), so `open` takes the already-open
fast path and completes successfully — the missing-controller error is
never delivered, contradicting the claim and the method's own
documentation. -/
theorem c2_direct_open_missing_controller_bug :
    directClientIsOpen (directClientNew none) = true ∧
    directClientOpen true (directClientNew none) =
      (directClientNew none, CallbackResult.invoked none) ∧
    directClientOpen false (directClientNew none) =
      (directClientNew none, CallbackResult.typeError) := by
  exact ⟨rfl, rfl, rfl⟩

/-- Claim C9: `unregister(r)` replaces the registration list with exactly
the elements equal to `r` (the list lodash `_.remove` returns), so every
registration different from `r` is dropped from the list. -/
theorem c9_unregister_keeps_only_matching (regs : List Nat) (r : Nat) :
    endpointUnregister regs r = regs.filter (fun x => x == r) ∧
    ∀ x ∈ regs, x ≠ r → x ∉ endpointUnregister regs r := by
  have h : endpointUnregister regs r = regs.filter (fun x => x == r) :=
    lodashRemove_fst regs (fun x => x == r)
  refine ⟨h, fun x _ hne hmem => ?_⟩
  rw [h] at hmem
  exact hne (by simpa using (List.mem_filter.mp hmem).2)

/-- Witness for C9: unregistering 2 from `[1, 2, 3]` leaves `[2]`, and the
unrelated registration 1 is gone. -/
theorem c9_unregister_keeps_only_matching_witness :
    endpointUnregister [1, 2, 3] 2 = [2] ∧
    (1 : Nat) ∉ endpointUnregister [1, 2, 3] 2 :=
  ⟨by decide, (c9_unregister_keeps_only_matching [1, 2, 3] 2).2 1 (by decide) (by decide)⟩

/-- Claim C8: an already-open `RestService` or `RestClient` treats `open`
as a successful no-op — null error, unchanged state, no endpoint open /
connection resolve — and `open` and `close` of both are idempotent on the
state under repetition. -/
theorem c8_open_close_idempotent (env : Option RpcError)
    (r : Option ConfigError × Option ConnectionParams)
    (st : RestServiceState) (stc : RestClientState) :
    (st.opened = true →
      restServiceOpen env true st = (st, CallbackResult.invoked none, false)) ∧
    (stc.clientPresent = true →
      restClientOpen r true stc = (stc, CallbackResult.invoked none, false)) ∧
    (restServiceOpen env true (restServiceOpen env true st).1).1 =
      (restServiceOpen env true st).1 ∧
    (restServiceClose true (restServiceClose true st).1).1 =
      (restServiceClose true st).1 ∧
    (restClientOpen r true (restClientOpen r true stc).1).1 =
      (restClientOpen r true stc).1 ∧
    (restClientClose true (restClientClose true stc).1).1 =
      (restClientClose true stc).1 := by
  obtain ⟨o, ep, le⟩ := st
  obtain ⟨cp, uri⟩ := stc
  obtain ⟨rerr, rconn⟩ := r
  refine ⟨?_, ?_, ?_, ?_, ?_, ?_⟩
  · intro h
    simp only at h
    simp [restServiceOpen, h, invokeCb]
  · intro h
    simp only at h
    simp [restClientOpen, h, invokeCbGuarded]
  · cases o <;> cases ep <;> cases le <;> rcases env with _ | e <;>
      simp [restServiceOpen, invokeCb]
  · cases o <;> cases ep <;> cases le <;>
      simp [restServiceClose, invokeCb]
  · cases cp <;> rcases rerr with _ | e <;>
      simp [restClientOpen, invokeCbGuarded]
  · cases cp <;> simp [restClientClose, invokeCbGuarded]

/-- Witness for C8: an open service and an open client at concrete states. -/
theorem c8_open_close_idempotent_witness :
    restServiceOpen none true
        { opened := true, endpointPresent := true, localEndpoint := true } =
      ({ opened := true, endpointPresent := true, localEndpoint := true },
        CallbackResult.invoked none, false) ∧
    restClientOpen (none, none) true
        { clientPresent := true, uri := some "http://localhost:3000" } =
      ({ clientPresent := true, uri := some "http://localhost:3000" },
        CallbackResult.invoked none, false) :=
  ⟨(c8_open_close_idempotent none (none, none)
      { opened := true, endpointPresent := true, localEndpoint := true }
      { clientPresent := true, uri := some "http://localhost:3000" }).1 rfl,
   (c8_open_close_idempotent none (none, none)
      { opened := true, endpointPresent := true, localEndpoint := true }
      { clientPresent := true, uri := some "http://localhost:3000" }).2.1 rfl⟩

/-- Claim C10: the already-open fast path of `HttpEndpoint.open`,
`RestService.open` and `DirectClient.open`, and the already-closed fast
path of `RestService.close`, invoke the optional callback unconditionally:
without a callback the call hits a `TypeError` instead of returning
silently, while with one supplied it completes with a null error (for
contrast, `RestClient.open` guards its callback and returns silently). -/
theorem c10_fast_path_callback_unguarded :
    (httpEndpointOpen (none, none) none false
      { serverPresent := true, uri := none }).2 = CallbackResult.typeError ∧
    (restServiceOpen none false
      { opened := true, endpointPresent := true, localEndpoint := true }).2.1 =
      CallbackResult.typeError ∧
    (restServiceClose false
      { opened := false, endpointPresent := true, localEndpoint := true }).2.1 =
      CallbackResult.typeError ∧
    (directClientOpen false { controller := some 0, opened := true }).2 =
      CallbackResult.typeError ∧
    (httpEndpointOpen (none, none) none true
      { serverPresent := true, uri := none }).2 = CallbackResult.invoked none ∧
    (restClientOpen (none, none) false
      { clientPresent := true, uri := none }).2.1 = CallbackResult.returned := by
  exact ⟨rfl, rfl, rfl, rfl, rfl, rfl⟩

end PipRpc
